import Mathlib

/-!
Shallow embedding of the orbital geometry and visibility engine of the
`icu` satellite catalog tool (package `pkg/satellite`, file `propagate.go`),
together with proofs about its regime classifier, pass scanner,
coordinate transform and range propagation loop.

Modelling conventions:
* Go `float64` values are modelled as exact numbers: the regime classifier
  (which uses only field arithmetic, absolute value and comparisons) is
  modelled over `ℚ`; the coordinate transform (which uses `sin`, `cos`,
  `sqrt`, `asin`, `atan2`) is modelled over `ℝ`.  Division by zero follows
  Lean's junk-value convention `x / 0 = 0`.
* Go `time.Time` / `time.Duration` values are modelled as integers
  (nanoseconds); `t.Before u` is `t < u`, `t.Equal u` is `t = u`,
  `t.Add d` is `t + d`.
* The external SGP4 integrator (`satellite.Propagate`, out of scope for the
  engine) is an abstract parameter `sgp4 : ℤ → Except PropagationError SGP4State`.
* Fallible Go functions returning `(T, error)` are modelled as `Except`.
-/

namespace Icu

/-! ### Orbit regime classifier (`DetermineOrbitRegime`, propagate.go lines 240-291) -/

/-- The `OrbitRegime` string constants of propagate.go lines 14-20. -/
inductive OrbitRegime : Type where
  | LEO
  | MEO
  | GEO
  | HEO
  | UNKNOWN
deriving DecidableEq, Repr

/-- `DetermineOrbitRegime` (propagate.go lines 240-291), transliterated over `ℚ`. -/
def DetermineOrbitRegime (apogee perigee period inclination : ℚ) : OrbitRegime :=
  -- Check for invalid/missing data
  if apogee ≤ 0 ∨ perigee ≤ 0 ∨ period ≤ 0 then OrbitRegime.UNKNOWN
  else
    -- Calculate semi-major axis (average altitude)
    let earthRadius : ℚ := 6371
    let semiMajorAxis := ((apogee + earthRadius) + (perigee + earthRadius)) / 2
    let avgAltitude := semiMajorAxis - earthRadius
    -- Calculate eccentricity
    let eccentricity := (apogee - perigee) / (apogee + perigee + 2 * earthRadius)
    -- HEO: Highly Elliptical Orbit (eccentricity > 0.25)
    if eccentricity > 0.25 then OrbitRegime.HEO
    -- GEO: geostationary window (altitude, period, inclination tolerances)
    else if |avgAltitude - 35786| < 500 ∧ |period - 1436| < 30 ∧ |inclination| < 5 then
      OrbitRegime.GEO
    -- LEO: Low Earth Orbit (< 2,000 km)
    else if avgAltitude < 2000 then OrbitRegime.LEO
    -- MEO: Medium Earth Orbit (2,000 - 35,786 km)
    else if avgAltitude ≥ 2000 ∧ avgAltitude < 35786 then OrbitRegime.MEO
    -- GEO altitude range (drifting or GEO-transfer objects)
    else if avgAltitude ≥ 35786 then OrbitRegime.GEO
    else OrbitRegime.UNKNOWN

/-- The classification policy exactly as worded in the specification
(§4.2, steps 1-7, first match wins), for comparison with
`DetermineOrbitRegime`. -/
def classifySpec (apogee perigee period inclination : ℚ) : OrbitRegime :=
  if apogee ≤ 0 ∨ perigee ≤ 0 ∨ period ≤ 0 then OrbitRegime.UNKNOWN
  else
    let Re : ℚ := 6371
    let avgAltitude := ((apogee + Re) + (perigee + Re)) / 2 - Re
    let e := (apogee - perigee) / (apogee + perigee + 2 * Re)
    if e > 0.25 then OrbitRegime.HEO
    else if |avgAltitude - 35786| < 500 ∧ |period - 1436| < 30 ∧ |inclination| < 5 then
      OrbitRegime.GEO
    else if avgAltitude < 2000 then OrbitRegime.LEO
    else if avgAltitude < 35786 then OrbitRegime.MEO
    else OrbitRegime.GEO

/-! ### Pass scanner (`FindPasses` accumulation loop, propagate.go lines 216-235)

The loop tests each sample only through the boolean `IsVisible` check, so it
is embedded generically in the sample type and the visibility test. -/

/-- The scanning loop of `FindPasses` (propagate.go lines 219-233): walk the
observations, appending visible samples to `currentPass`; on an invisible
sample emit the open candidate (if non-empty); after the loop emit the still
open candidate. -/
def findPassesLoop {α : Type} (visible : α → Bool) :
    List α → List α → List (List α)
  | [], currentPass => if currentPass.isEmpty then [] else [currentPass]
  | o :: rest, currentPass =>
    if visible o then
      findPassesLoop visible rest (currentPass ++ [o])
    else if currentPass.isEmpty then
      findPassesLoop visible rest currentPass
    else
      currentPass :: findPassesLoop visible rest []

/-- The pass grouping performed by `FindPasses` (propagate.go lines 216-235),
starting from an empty candidate. -/
def FindPassesScan {α : Type} (visible : α → Bool) (observations : List α) :
    List (List α) :=
  findPassesLoop visible observations []

/-- Number of maximal contiguous runs of `visible` samples, tracking whether
the previous sample was visible: a run starts at each visible sample whose
predecessor is absent or invisible. -/
def countRunsAux {α : Type} (visible : α → Bool) : Bool → List α → ℕ
  | _, [] => 0
  | prev, o :: rest =>
    (if visible o && !prev then 1 else 0) + countRunsAux visible (visible o) rest

/-- Number of maximal contiguous runs of `visible` samples in a list. -/
def countRuns {α : Type} (visible : α → Bool) (xs : List α) : ℕ :=
  countRunsAux visible false xs

/-- `p` occurs as a contiguous block of `xs`. -/
def ContiguousIn {α : Type} (p xs : List α) : Prop :=
  ∃ pre post, xs = pre ++ p ++ post

/-- The Go classifier agrees with the specification's seven-step first-match
policy on every input. -/
lemma determineOrbitRegime_eq_classifySpec (apogee perigee period inclination : ℚ) :
    DetermineOrbitRegime apogee perigee period inclination =
      classifySpec apogee perigee period inclination := by
  simp only [DetermineOrbitRegime, classifySpec]
  split_ifs with h0 h1 h2 h3 h4 h5 h6 <;>
    first
      | rfl
      | (exfalso; push_neg at h4; linarith [h4 (by linarith)])
      | (exfalso; push_neg at *; linarith)

/-- Flattening the scanner's output recovers the carried candidate followed by
the visible samples of the remaining input. -/
lemma findPassesLoop_flatten {α : Type} (visible : α → Bool) (xs : List α) :
    ∀ cur : List α,
      (findPassesLoop visible xs cur).flatten = cur ++ xs.filter visible := by
  induction xs with
  | nil =>
    intro cur
    by_cases h : cur.isEmpty
    · simp [findPassesLoop, h, List.isEmpty_iff.mp h]
    · simp [findPassesLoop, h]
  | cons o rest ih =>
    intro cur
    by_cases hv : visible o
    · simp [findPassesLoop, hv, ih]
    · by_cases h : cur.isEmpty
      · simp [findPassesLoop, hv, h, ih, List.isEmpty_iff.mp h]
      · simp [findPassesLoop, hv, h, ih]

/-- The scanner emits one pass per maximal visible run of the remaining input,
plus one for a non-empty carried candidate. -/
lemma findPassesLoop_length {α : Type} (visible : α → Bool) (xs : List α) :
    ∀ cur : List α,
      (findPassesLoop visible xs cur).length =
        countRunsAux visible (!cur.isEmpty) xs + (if cur.isEmpty then 0 else 1) := by
  induction xs with
  | nil =>
    intro cur
    by_cases h : cur.isEmpty <;> simp [findPassesLoop, countRunsAux, h]
  | cons o rest ih =>
    intro cur
    by_cases hv : visible o
    · have hne : (cur ++ [o]).isEmpty = false := by simp
      by_cases h : cur.isEmpty
      · simp [findPassesLoop, hv, h, ih, countRunsAux, hne]
        omega
      · simp [findPassesLoop, hv, h, ih, countRunsAux, hne]
    · by_cases h : cur.isEmpty
      · simp [findPassesLoop, hv, h, ih, countRunsAux]
      · simp [findPassesLoop, hv, h, ih, countRunsAux]

/-- On an all-visible remainder the scanner emits exactly one pass: the carried
candidate extended by the whole remainder. -/
lemma findPassesLoop_all_visible {α : Type} (visible : α → Bool) (xs : List α) :
    ∀ cur : List α, cur ++ xs ≠ [] → (∀ x ∈ xs, visible x = true) →
      findPassesLoop visible xs cur = [cur ++ xs] := by
  induction xs with
  | nil =>
    intro cur h _
    simp only [List.append_nil] at h
    simp [findPassesLoop, List.isEmpty_iff, h]
  | cons o rest ih =>
    intro cur _ hall
    have hv : visible o = true := hall o (by simp)
    rw [findPassesLoop, if_pos hv, ih (cur ++ [o]) (by simp) (fun x hx => hall x (by simp [hx]))]
    simp

/-- The scanner never emits an empty pass. -/
lemma findPassesLoop_mem_ne_nil {α : Type} (visible : α → Bool) (xs : List α) :
    ∀ cur p, p ∈ findPassesLoop visible xs cur → p ≠ [] := by
  induction xs with
  | nil =>
    intro cur p hp
    by_cases h : cur.isEmpty <;> simp [findPassesLoop, h] at hp
    subst hp
    simpa [List.isEmpty_iff] using h
  | cons o rest ih =>
    intro cur p hp
    by_cases hv : visible o
    · exact ih (cur ++ [o]) p (by simpa [findPassesLoop, hv] using hp)
    · by_cases h : cur.isEmpty
      · exact ih cur p (by simpa [findPassesLoop, hv, h] using hp)
      · rw [findPassesLoop, if_neg (by simp [hv]), if_neg (by simp [h])] at hp
        rcases List.mem_cons.mp hp with rfl | hp'
        · simpa [List.isEmpty_iff] using h
        · exact ih [] p hp'

/-- Every sample of every emitted pass is visible, provided the carried
candidate consists of visible samples. -/
lemma findPassesLoop_mem_visible {α : Type} (visible : α → Bool) (xs : List α) :
    ∀ cur p, (∀ x ∈ cur, visible x = true) → p ∈ findPassesLoop visible xs cur →
      ∀ x ∈ p, visible x = true := by
  induction xs with
  | nil =>
    intro cur p hcur hp
    by_cases h : cur.isEmpty <;> simp [findPassesLoop, h] at hp
    subst hp
    exact hcur
  | cons o rest ih =>
    intro cur p hcur hp
    by_cases hv : visible o
    · refine ih (cur ++ [o]) p ?_ (by simpa [findPassesLoop, hv] using hp)
      intro x hx
      rcases List.mem_append.mp hx with hx' | hx'
      · exact hcur x hx'
      · simpa [List.mem_singleton.mp hx'] using hv
    · by_cases h : cur.isEmpty
      · exact ih cur p hcur (by simpa [findPassesLoop, hv, h] using hp)
      · rw [findPassesLoop, if_neg (by simp [hv]), if_neg (by simp [h])] at hp
        rcases List.mem_cons.mp hp with rfl | hp'
        · exact hcur
        · exact ih [] p (by simp) hp'

/-- Every emitted pass is a contiguous block of the input, up to the carried
candidate: it either continues the candidate with a prefix of the remaining
input, or is wholly contiguous in the remaining input. -/
lemma findPassesLoop_mem_shape {α : Type} (visible : α → Bool) (xs : List α) :
    ∀ cur p, p ∈ findPassesLoop visible xs cur →
      (∃ t rest2, xs = t ++ rest2 ∧ p = cur ++ t) ∨ ContiguousIn p xs := by
  induction xs with
  | nil =>
    intro cur p hp
    by_cases h : cur.isEmpty <;> simp [findPassesLoop, h] at hp
    subst hp
    exact Or.inl ⟨[], [], by simp⟩
  | cons o rest ih =>
    intro cur p hp
    by_cases hv : visible o
    · rcases ih (cur ++ [o]) p (by simpa [findPassesLoop, hv] using hp) with
        ⟨t, rest2, hxs, hpt⟩ | ⟨pre, post, hc⟩
      · exact Or.inl ⟨o :: t, rest2, by simp [hxs], by simp [hpt]⟩
      · exact Or.inr ⟨o :: pre, post, by simp [hc]⟩
    · by_cases h : cur.isEmpty
      · rcases ih cur p (by simpa [findPassesLoop, hv, h] using hp) with
          ⟨t, rest2, hxs, hpt⟩ | ⟨pre, post, hc⟩
        · rw [List.isEmpty_iff.mp h] at hpt
          exact Or.inr ⟨[o], rest2, by simp [hxs, hpt]⟩
        · exact Or.inr ⟨o :: pre, post, by simp [hc]⟩
      · rw [findPassesLoop, if_neg (by simp [hv]), if_neg (by simp [h])] at hp
        rcases List.mem_cons.mp hp with rfl | hp'
        · exact Or.inl ⟨[], o :: rest, by simp, by simp⟩
        · rcases ih [] p hp' with ⟨t, rest2, hxs, hpt⟩ | ⟨pre, post, hc⟩
          · exact Or.inr ⟨[o], rest2, by simp [hxs, hpt]⟩
          · exact Or.inr ⟨o :: pre, post, by simp [hc]⟩

/-! ### Coordinate transform (`ECEFToTopocentric` and `CalculateObservationAngles`,
propagate.go lines 104-186), over `ℝ`. -/

/-- `ObserverPosition` (propagate.go lines 23-27): geodetic latitude and
longitude in degrees, altitude in meters. -/
structure ObserverPosition : Type where
  Latitude : ℝ
  Longitude : ℝ
  Altitude : ℝ

/-- `SatellitePosition` (propagate.go lines 30-34): timestamp plus ECEF
position (km) and velocity (km/s). -/
structure SatellitePosition : Type where
  Time : ℤ
  X : ℝ
  Y : ℝ
  Z : ℝ
  Vx : ℝ
  Vy : ℝ
  Vz : ℝ

/-- `ObservationAngles` (propagate.go lines 37-43). -/
structure ObservationAngles : Type where
  Time : ℤ
  Azimuth : ℝ
  Elevation : ℝ
  Range : ℝ
  RangeRate : ℝ

/-- Go's `math.Atan2 y x`, modelled as the argument of the complex number
`x + y·i`, which lies in `(-π, π]` and is `0` at the origin. -/
noncomputable def atan2 (y x : ℝ) : ℝ :=
  Complex.arg ⟨x, y⟩

/-- The observer's ECEF position computed inside `ECEFToTopocentric`
(propagate.go lines 105-127) from geodetic coordinates with the WGS84
ellipsoid. -/
noncomputable def observerECEF (observer : ObserverPosition) : ℝ × ℝ × ℝ :=
  let obsLatRad := observer.Latitude * Real.pi / 180
  let obsLonRad := observer.Longitude * Real.pi / 180
  let obsAltKm := observer.Altitude / 1000
  let a : ℝ := 6378.137
  let f : ℝ := 1 / 298.257223563
  let e2 : ℝ := 2 * f - f * f
  let sinLat := Real.sin obsLatRad
  let cosLat := Real.cos obsLatRad
  let sinLon := Real.sin obsLonRad
  let cosLon := Real.cos obsLonRad
  let N := a / Real.sqrt (1 - e2 * sinLat * sinLat)
  ((N + obsAltKm) * cosLat * cosLon,
   (N + obsAltKm) * cosLat * sinLon,
   (N * (1 - e2) + obsAltKm) * sinLat)

/-- `ECEFToTopocentric` (propagate.go lines 104-140): difference vector from
the observer's ECEF position, rotated into the local East-North-Up frame. -/
noncomputable def ECEFToTopocentric (satPos : SatellitePosition)
    (observer : ObserverPosition) : ℝ × ℝ × ℝ :=
  let obsLatRad := observer.Latitude * Real.pi / 180
  let obsLonRad := observer.Longitude * Real.pi / 180
  let sinLat := Real.sin obsLatRad
  let cosLat := Real.cos obsLatRad
  let sinLon := Real.sin obsLonRad
  let cosLon := Real.cos obsLonRad
  let obs := observerECEF observer
  let dx := satPos.X - obs.1
  let dy := satPos.Y - obs.2.1
  let dz := satPos.Z - obs.2.2
  (-sinLon * dx + cosLon * dy,
   -sinLat * cosLon * dx - sinLat * sinLon * dy + cosLat * dz,
   cosLat * cosLon * dx + cosLat * sinLon * dy + sinLat * dz)

/-- `CalculateObservationAngles` (propagate.go lines 144-186).  Note the Go
function returns a plain `*ObservationAngles` with no error channel; it is a
total function.  Division follows Lean's `x / 0 = 0` convention where Go's
float semantics would produce NaN. -/
noncomputable def CalculateObservationAngles (satPos : SatellitePosition)
    (observer : ObserverPosition) : ObservationAngles :=
  let enu := ECEFToTopocentric satPos observer
  let east := enu.1
  let north := enu.2.1
  let up := enu.2.2
  let rangeKm := Real.sqrt (east * east + north * north + up * up)
  let azimuthRad := atan2 east north
  let azimuthDeg := azimuthRad * 180 / Real.pi
  let azimuthDeg' := if azimuthDeg < 0 then azimuthDeg + 360 else azimuthDeg
  let elevationRad := Real.arcsin (up / rangeKm)
  let elevationDeg := elevationRad * 180 / Real.pi
  let obsLatRad := observer.Latitude * Real.pi / 180
  let obsLonRad := observer.Longitude * Real.pi / 180
  let sinLat := Real.sin obsLatRad
  let cosLat := Real.cos obsLatRad
  let sinLon := Real.sin obsLonRad
  let cosLon := Real.cos obsLonRad
  let vEast := -sinLon * satPos.Vx + cosLon * satPos.Vy
  let vNorth := -sinLat * cosLon * satPos.Vx - sinLat * sinLon * satPos.Vy + cosLat * satPos.Vz
  let vUp := cosLat * cosLon * satPos.Vx + cosLat * sinLon * satPos.Vy + sinLat * satPos.Vz
  let rangeRate := (east * vEast + north * vNorth + up * vUp) / rangeKm
  { Time := satPos.Time
    Azimuth := azimuthDeg'
    Elevation := elevationDeg
    Range := rangeKm
    RangeRate := rangeRate }

/-- `IsVisible` (propagate.go lines 204-206). -/
noncomputable def IsVisible (obs : ObservationAngles) (minElevation : ℝ) : Bool :=
  decide (obs.Elevation ≥ minElevation)

/-- The specification's §4.1 `toTopocentric` formulas, written exactly as the
spec states them (WGS84 `N`, observer ECEF, difference vector, ECEF→ENU
rotation), for comparison with `ECEFToTopocentric`. -/
noncomputable def toTopocentricSpec (satPos : SatellitePosition)
    (observer : ObserverPosition) : ℝ × ℝ × ℝ :=
  let lat := observer.Latitude * Real.pi / 180
  let lon := observer.Longitude * Real.pi / 180
  let altKm := observer.Altitude / 1000
  let a : ℝ := 6378.137
  let f : ℝ := 1 / 298.257223563
  let e2 : ℝ := 2 * f - f * f
  let N := a / Real.sqrt (1 - e2 * Real.sin lat ^ 2)
  let obsX := (N + altKm) * Real.cos lat * Real.cos lon
  let obsY := (N + altKm) * Real.cos lat * Real.sin lon
  let obsZ := (N * (1 - e2) + altKm) * Real.sin lat
  let dx := satPos.X - obsX
  let dy := satPos.Y - obsY
  let dz := satPos.Z - obsZ
  (-Real.sin lon * dx + Real.cos lon * dy,
   -Real.sin lat * Real.cos lon * dx - Real.sin lat * Real.sin lon * dy + Real.cos lat * dz,
   Real.cos lat * Real.cos lon * dx + Real.cos lat * Real.sin lon * dy + Real.sin lat * dz)

/-- The specification's §4.1 `range_rate` formula: rotate the velocity into
the ENU frame with the identical rotation and dot it with the unit range
vector `(east, north, up) / range`. -/
noncomputable def rangeRateSpec (satPos : SatellitePosition)
    (observer : ObserverPosition) : ℝ :=
  let enu := ECEFToTopocentric satPos observer
  let east := enu.1
  let north := enu.2.1
  let up := enu.2.2
  let range := Real.sqrt (east * east + north * north + up * up)
  let lat := observer.Latitude * Real.pi / 180
  let lon := observer.Longitude * Real.pi / 180
  let vEast := -Real.sin lon * satPos.Vx + Real.cos lon * satPos.Vy
  let vNorth := -Real.sin lat * Real.cos lon * satPos.Vx
    - Real.sin lat * Real.sin lon * satPos.Vy + Real.cos lat * satPos.Vz
  let vUp := Real.cos lat * Real.cos lon * satPos.Vx
    + Real.cos lat * Real.sin lon * satPos.Vy + Real.sin lat * satPos.Vz
  vEast * (east / range) + vNorth * (north / range) + vUp * (up / range)

/-! ### Range propagation and pass finding
(`PropagateSatellite`, `PropagateRange`, `CalculateObservationAnglesRange`,
`FindPasses`, propagate.go lines 47-236).

Time is modelled as `ℤ` (nanoseconds); the external SGP4 integrator is an
abstract parameter producing position/velocity or a propagation error. -/

/-- The state produced by the external SGP4 integrator for one timestamp:
ECEF position (km) and velocity (km/s). -/
structure SGP4State : Type where
  X : ℝ
  Y : ℝ
  Z : ℝ
  Vx : ℝ
  Vy : ℝ
  Vz : ℝ

/-- The error reported when the SGP4 integrator fails
(`satrec.Error != 0`, propagate.go lines 63-65). -/
inductive PropagationError : Type where
  | sgp4Error
deriving DecidableEq

/-- Errors returned by `PropagateRange` (propagate.go lines 85-87 and 92-95):
either the range is inverted, or propagation failed at some sample time. -/
inductive RangeError : Type where
  | endBeforeStart
  | propagation
deriving DecidableEq

/-- `PropagateSatellite` (propagate.go lines 47-76): invoke the integrator at
`t` and stamp the resulting state with `t` (the `Time: t` field on line 68). -/
def PropagateSatellite (sgp4 : ℤ → Except PropagationError SGP4State) (t : ℤ) :
    Except PropagationError SatellitePosition :=
  match sgp4 t with
  | Except.error e => Except.error e
  | Except.ok s => Except.ok ⟨t, s.X, s.Y, s.Z, s.Vx, s.Vy, s.Vz⟩

/-- The loop of `PropagateRange` (propagate.go lines 91-97):
`for t := startTime; t ≤ endTime; t = t + stepSize`, appending each
propagated position, returning the first propagation error.  Fuel bounds the
iteration count; `(endTime - t).toNat + 1` is exact fuel whenever
`1 ≤ stepSize` (for non-positive steps the Go loop does not terminate). -/
def propagateLoop (sgp4 : ℤ → Except PropagationError SGP4State)
    (endTime stepSize : ℤ) : ℕ → ℤ → Except RangeError (List SatellitePosition)
  | 0, _ => Except.ok []
  | fuel + 1, t =>
    if t ≤ endTime then
      match PropagateSatellite sgp4 t with
      | Except.error _ => Except.error RangeError.propagation
      | Except.ok pos =>
        match propagateLoop sgp4 endTime stepSize fuel (t + stepSize) with
        | Except.error e => Except.error e
        | Except.ok rest => Except.ok (pos :: rest)
    else Except.ok []

/-- `PropagateRange` (propagate.go lines 80-100). -/
def PropagateRange (sgp4 : ℤ → Except PropagationError SGP4State)
    (startTime endTime stepSize : ℤ) : Except RangeError (List SatellitePosition) :=
  if endTime < startTime then Except.error RangeError.endBeforeStart
  else propagateLoop sgp4 endTime stepSize ((endTime - startTime).toNat + 1) startTime

/-- `CalculateObservationAnglesRange` (propagate.go lines 189-201). -/
noncomputable def CalculateObservationAnglesRange
    (sgp4 : ℤ → Except PropagationError SGP4State) (observer : ObserverPosition)
    (startTime endTime stepSize : ℤ) : Except RangeError (List ObservationAngles) :=
  match PropagateRange sgp4 startTime endTime stepSize with
  | Except.error e => Except.error e
  | Except.ok positions =>
    Except.ok (positions.map (fun pos => CalculateObservationAngles pos observer))

/-- `FindPasses` (propagate.go lines 210-236): build the observation-angle
time series, then group it into passes with the accumulation loop. -/
noncomputable def FindPasses (sgp4 : ℤ → Except PropagationError SGP4State)
    (observer : ObserverPosition) (startTime endTime stepSize : ℤ)
    (minElevation : ℝ) : Except RangeError (List (List ObservationAngles)) :=
  match CalculateObservationAnglesRange sgp4 observer startTime endTime stepSize with
  | Except.error e => Except.error e
  | Except.ok observations =>
    Except.ok (FindPassesScan (fun obs => IsVisible obs minElevation) observations)

/-- `Except` result carries a value. -/
def exceptOk {ε α : Type} : Except ε α → Bool
  | Except.ok _ => true
  | Except.error _ => false

/-- The sample grid of `PropagateRange`: the arithmetic progression
`startTime, startTime + stepSize, …` of times not exceeding `endTime`
(empty when the range is inverted). -/
def gridTimes (startTime endTime stepSize : ℤ) : List ℤ :=
  if endTime < startTime then []
  else (List.range (((endTime - startTime) / stepSize).toNat + 1)).map
    (fun i : ℕ => startTime + (i : ℤ) * stepSize)

/-- Past the end of the range the loop stops immediately with no samples. -/
lemma propagateLoop_past (sgp4 : ℤ → Except PropagationError SGP4State)
    (endTime stepSize : ℤ) (fuel : ℕ) (t : ℤ) (h : endTime < t) :
    propagateLoop sgp4 endTime stepSize fuel t = Except.ok [] := by
  cases fuel with
  | zero => rfl
  | succ fuel => rw [propagateLoop, if_neg (not_le.mpr h)]

/-- Peeling one sample off the grid. -/
lemma gridTimes_cons (startTime endTime stepSize : ℤ) (hst : 1 ≤ stepSize)
    (h : startTime ≤ endTime) :
    gridTimes startTime endTime stepSize =
      startTime :: gridTimes (startTime + stepSize) endTime stepSize := by
  by_cases h2 : endTime < startTime + stepSize
  · rw [gridTimes, if_neg (not_lt.mpr h), gridTimes, if_pos h2]
    have hdiv : (endTime - startTime) / stepSize = 0 :=
      Int.ediv_eq_zero_of_lt (by omega) (by omega)
    rw [hdiv]
    simp [List.range_succ]
  · rw [gridTimes, if_neg (not_lt.mpr h), gridTimes, if_neg h2]
    have hdiv : (endTime - (startTime + stepSize)) / stepSize
        = (endTime - startTime) / stepSize - 1 := by
      have hrw : endTime - (startTime + stepSize)
          = (endTime - startTime) + (-1) * stepSize := by ring
      rw [hrw, Int.add_mul_ediv_right _ _ (by omega : stepSize ≠ 0)]
      ring
    have hge1 : 1 ≤ (endTime - startTime) / stepSize := by
      rw [Int.le_ediv_iff_mul_le (by omega : (0:ℤ) < stepSize)]
      omega
    have h0 : 0 ≤ (endTime - (startTime + stepSize)) / stepSize :=
      Int.ediv_nonneg (by omega) (by omega)
    have hnat : ((endTime - startTime) / stepSize).toNat
        = ((endTime - (startTime + stepSize)) / stepSize).toNat + 1 := by
      omega
    rw [hnat, List.range_succ_eq_map, List.map_cons, List.map_map]
    refine congrArg₂ List.cons (by push_cast; ring) ?_
    refine List.map_congr_left ?_
    intro i _
    simp only [Function.comp_apply]
    push_cast
    ring

/-- Master lemma for the propagation loop: with positive step and sufficient
fuel, a successful run produces exactly the grid of timestamps, and the
integrator succeeded at every grid time. -/
lemma propagateLoop_ok (sgp4 : ℤ → Except PropagationError SGP4State)
    (endTime stepSize : ℤ) (hst : 1 ≤ stepSize) :
    ∀ (fuel : ℕ) (t : ℤ) (l : List SatellitePosition),
      (endTime - t).toNat < fuel →
      propagateLoop sgp4 endTime stepSize fuel t = Except.ok l →
      l.map SatellitePosition.Time = gridTimes t endTime stepSize ∧
        ∀ u ∈ gridTimes t endTime stepSize, exceptOk (sgp4 u) = true := by
  intro fuel
  induction fuel with
  | zero => intro t l hf; omega
  | succ fuel ih =>
    intro t l hf hok
    by_cases ht : t ≤ endTime
    · rw [propagateLoop, if_pos ht] at hok
      rcases hs : sgp4 t with e | s
      · rw [PropagateSatellite, hs] at hok
        exact absurd hok (by simp)
      · rw [PropagateSatellite, hs] at hok
        rcases hrest : propagateLoop sgp4 endTime stepSize fuel (t + stepSize) with e | rest
        · rw [hrest] at hok
          exact absurd hok (by simp)
        · rw [hrest] at hok
          have hl : l = ⟨t, s.X, s.Y, s.Z, s.Vx, s.Vy, s.Vz⟩ :: rest := by
            simpa using hok.symm
          by_cases h2 : endTime < t + stepSize
          · have hrest0 : rest = [] := by
              rw [propagateLoop_past sgp4 endTime stepSize fuel (t + stepSize) h2] at hrest
              simpa using hrest.symm
            have hg : gridTimes (t + stepSize) endTime stepSize = [] := by
              rw [gridTimes, if_pos h2]
            rw [gridTimes_cons t endTime stepSize hst ht, hg]
            constructor
            · rw [hl, hrest0, List.map_cons]
              rfl
            · intro u hu
              rcases List.mem_cons.mp hu with rfl | hu'
              · simp [exceptOk, hs]
              · simp at hu'
          · have hfuel : (endTime - (t + stepSize)).toNat < fuel := by omega
            obtain ⟨htimes, hall⟩ := ih (t + stepSize) rest hfuel hrest
            rw [gridTimes_cons t endTime stepSize hst ht]
            constructor
            · rw [hl, List.map_cons, htimes]
            · intro u hu
              rcases List.mem_cons.mp hu with rfl | hu'
              · simp [exceptOk, hs]
              · exact hall u hu'
    · rw [propagateLoop_past sgp4 endTime stepSize _ t (by omega)] at hok
      have hl : l = [] := by simpa using hok.symm
      rw [gridTimes, if_pos (by omega : endTime < t), hl]
      exact ⟨rfl, by simp⟩

/-- A successful `PropagateRange` call yields exactly the grid of timestamps
and implies integrator success at every grid time. -/
lemma propagateRange_ok (sgp4 : ℤ → Except PropagationError SGP4State)
    (startTime endTime stepSize : ℤ) (hst : 1 ≤ stepSize)
    (l : List SatellitePosition)
    (hok : PropagateRange sgp4 startTime endTime stepSize = Except.ok l) :
    l.map SatellitePosition.Time = gridTimes startTime endTime stepSize ∧
      ∀ u ∈ gridTimes startTime endTime stepSize, exceptOk (sgp4 u) = true := by
  by_cases h : endTime < startTime
  · rw [PropagateRange, if_pos h] at hok
    exact absurd hok (by simp)
  · rw [PropagateRange, if_neg h] at hok
    exact propagateLoop_ok sgp4 endTime stepSize hst _ startTime l (by omega) hok

/-- The grid is strictly increasing in time. -/
lemma gridTimes_pairwise (startTime endTime stepSize : ℤ) (hst : 1 ≤ stepSize) :
    (gridTimes startTime endTime stepSize).Pairwise (· < ·) := by
  rw [gridTimes]
  split_ifs
  · exact List.Pairwise.nil
  · refine List.Pairwise.map _ ?_ (List.pairwise_lt_range _)
    intro i j hij
    have : (i : ℤ) < (j : ℤ) := by exact_mod_cast hij
    nlinarith

/-- Every step-aligned time in the range appears in the grid. -/
lemma gridTimes_mem (startTime endTime stepSize : ℤ) (hst : 1 ≤ stepSize)
    (t : ℤ) (h1 : startTime ≤ t) (h2 : t ≤ endTime)
    (hd : stepSize ∣ (t - startTime)) :
    t ∈ gridTimes startTime endTime stepSize := by
  rw [gridTimes, if_neg (not_lt.mpr (le_trans h1 h2))]
  have h0 : 0 ≤ (t - startTime) / stepSize :=
    Int.ediv_nonneg (by omega) (by omega)
  have hle : (t - startTime) / stepSize ≤ (endTime - startTime) / stepSize :=
    Int.ediv_le_ediv (by omega) (by omega)
  have h0e : 0 ≤ (endTime - startTime) / stepSize :=
    Int.ediv_nonneg (by omega) (by omega)
  refine List.mem_map.mpr ⟨((t - startTime) / stepSize).toNat, ?_, ?_⟩
  · exact List.mem_range.mpr (by omega)
  · rw [Int.toNat_of_nonneg h0, Int.ediv_mul_cancel hd]
    ring

/-- The grid starts at the start time whenever the range is not inverted. -/
lemma gridTimes_head (startTime endTime stepSize : ℤ) (h : startTime ≤ endTime) :
    (gridTimes startTime endTime stepSize).head? = some startTime := by
  rw [gridTimes, if_neg (not_lt.mpr h), List.range_succ_eq_map]
  simp

/-! ### Helper lemmas and concrete inputs for the geometry claims -/

/-- `atan2` at the origin follows the `atan2(0, 0) = 0` convention. -/
lemma atan2_zero_zero : atan2 0 0 = 0 := by
  have h : (⟨0, 0⟩ : ℂ) = 0 := by
    apply Complex.ext <;> simp
  rw [atan2, h, Complex.arg_zero]

lemma atan2_le_pi (y x : ℝ) : atan2 y x ≤ Real.pi := Complex.arg_le_pi _

lemma neg_pi_lt_atan2 (y x : ℝ) : -Real.pi < atan2 y x := Complex.neg_pi_lt_arg _

/-- The normalized azimuth (degrees plus 360 when negative) lies in `[0, 360)`. -/
lemma azimuthDeg_bounds (a : ℝ) (h1 : -Real.pi < a) (h2 : a ≤ Real.pi) :
    0 ≤ (if a * 180 / Real.pi < 0 then a * 180 / Real.pi + 360 else a * 180 / Real.pi) ∧
    (if a * 180 / Real.pi < 0 then a * 180 / Real.pi + 360 else a * 180 / Real.pi) < 360 := by
  have hpi : (0:ℝ) < Real.pi := Real.pi_pos
  have hd1 : a * 180 / Real.pi ≤ 180 := by
    rw [div_le_iff₀ hpi]; nlinarith
  have hd2 : -180 < a * 180 / Real.pi := by
    rw [lt_div_iff₀ hpi]; nlinarith
  split_ifs with hlt
  · constructor <;> linarith
  · constructor <;> linarith

/-- The elevation in degrees lies in `[-90, 90]`. -/
lemma elevationDeg_bounds (x : ℝ) :
    -90 ≤ Real.arcsin x * 180 / Real.pi ∧ Real.arcsin x * 180 / Real.pi ≤ 90 := by
  have hpi : (0:ℝ) < Real.pi := Real.pi_pos
  have h1 := Real.arcsin_le_pi_div_two x
  have h2 := Real.neg_pi_div_two_le_arcsin x
  constructor
  · rw [le_div_iff₀ hpi]; nlinarith
  · rw [div_le_iff₀ hpi]; nlinarith

/-- Observer at latitude 0, longitude 0, altitude 0. -/
def obsOrigin : ObserverPosition := ⟨0, 0, 0⟩

/-- A satellite position that coincides exactly with `obsOrigin`'s ECEF
position (the WGS84 semi-major axis point on the equator at longitude 0). -/
def satCoincident : SatellitePosition := ⟨0, 6378.137, 0, 0, 0, 0, 0⟩

/-- A satellite position 400 km directly above `obsOrigin` (local zenith). -/
def satZenith : SatellitePosition := ⟨0, 6778.137, 0, 0, 0, 0, 0⟩

lemma observerECEF_origin : observerECEF ⟨0, 0, 0⟩ = (6378.137, 0, 0) := by
  simp [observerECEF]

lemma topo_coincident : ECEFToTopocentric satCoincident obsOrigin = (0, 0, 0) := by
  simp [ECEFToTopocentric, obsOrigin, observerECEF_origin, satCoincident]

lemma topo_zenith : ECEFToTopocentric satZenith obsOrigin = (0, 0, 400) := by
  simp [ECEFToTopocentric, obsOrigin, observerECEF_origin, satZenith]
  norm_num

/-- SGP4 stub that fails only at time 1 and succeeds elsewhere. -/
def sgp4FailAt1 : ℤ → Except PropagationError SGP4State :=
  fun t => if t = 1 then Except.error PropagationError.sgp4Error
    else Except.ok ⟨7000, 0, 0, 0, 0, 0⟩

/-- SGP4 stub that always succeeds. -/
def sgp4AllOk : ℤ → Except PropagationError SGP4State :=
  fun _ => Except.ok ⟨7000, 0, 0, 0, 0, 0⟩

/-- The positions `sgp4AllOk` produces over times 0, 1, 2 with step 1. -/
def posList012 : List SatellitePosition :=
  [⟨0, 7000, 0, 0, 0, 0, 0⟩, ⟨1, 7000, 0, 0, 0, 0, 0⟩, ⟨2, 7000, 0, 0, 0, 0, 0⟩]

/-- A sample below a 5-degree threshold (elevation 1). -/
def obsLow : ObservationAngles := ⟨0, 0, 1, 0, 0⟩

/-- A sample above a 5-degree threshold (elevation 10). -/
def obsHigh : ObservationAngles := ⟨1, 0, 10, 0, 0⟩

/-- Another sample above a 5-degree threshold (elevation 20). -/
def obsHigh2 : ObservationAngles := ⟨2, 0, 20, 0, 0⟩

/-- A satellite position at the ECEF origin (distinct from any observer on
the ellipsoid). -/
def satNull : SatellitePosition := ⟨0, 0, 0, 0, 0, 0, 0⟩

/-- For positive inputs the classifier lands in one of the four named
regimes; the trailing `UNKNOWN` branch is unreachable. -/
lemma determineOrbitRegime_cases (apogee perigee period inclination : ℚ)
    (h : ¬(apogee ≤ 0 ∨ perigee ≤ 0 ∨ period ≤ 0)) :
    DetermineOrbitRegime apogee perigee period inclination = OrbitRegime.LEO ∨
    DetermineOrbitRegime apogee perigee period inclination = OrbitRegime.MEO ∨
    DetermineOrbitRegime apogee perigee period inclination = OrbitRegime.GEO ∨
    DetermineOrbitRegime apogee perigee period inclination = OrbitRegime.HEO := by
  simp only [DetermineOrbitRegime, if_neg h]
  split_ifs with h1 h2 h3 h4 h5 <;>
    first
      | (left; rfl)
      | (right; left; rfl)
      | (right; right; left; rfl)
      | (right; right; right; rfl)
      | skip
  exfalso
  push_neg at h3 h4 h5
  linarith [h4 h3]

/-! ### The claims -/

/-- C1: for every input sequence and threshold, the concatenation of the
samples of all passes emitted by the `FindPasses` scan equals exactly the
subsequence of input samples with elevation at or above the threshold, and
the number of passes equals the number of maximal contiguous above-threshold
runs; the empty input yields an empty result and an all-above-threshold
input yields exactly one pass containing every sample. -/
theorem claim_C1 (minElevation : ℝ) (xs : List ObservationAngles) :
    (FindPassesScan (fun o => IsVisible o minElevation) xs).flatten =
        xs.filter (fun o => IsVisible o minElevation) ∧
    (FindPassesScan (fun o => IsVisible o minElevation) xs).length =
        countRuns (fun o => IsVisible o minElevation) xs ∧
    FindPassesScan (fun o => IsVisible o minElevation) ([] : List ObservationAngles) = [] ∧
    ((∀ o ∈ xs, IsVisible o minElevation = true) → xs ≠ [] →
      FindPassesScan (fun o => IsVisible o minElevation) xs = [xs]) := by
  refine ⟨?_, ?_, rfl, ?_⟩
  · simpa [FindPassesScan] using
      findPassesLoop_flatten (fun o => IsVisible o minElevation) xs []
  · simpa [FindPassesScan, countRuns] using
      findPassesLoop_length (fun o => IsVisible o minElevation) xs []
  · intro hall hne
    simpa [FindPassesScan] using
      findPassesLoop_all_visible (fun o => IsVisible o minElevation) xs []
        (by simpa using hne) hall

/-- Witness for C1 at a concrete all-above-threshold input. -/
theorem claim_C1_witness :
    (∀ o ∈ [obsHigh, obsHigh2], IsVisible o 5 = true) ∧
    ([obsHigh, obsHigh2] : List ObservationAngles) ≠ [] ∧
    FindPassesScan (fun o => IsVisible o 5) [obsHigh, obsHigh2] = [[obsHigh, obsHigh2]] := by
  have h1 : ∀ o ∈ [obsHigh, obsHigh2], IsVisible o 5 = true := by
    norm_num [IsVisible, obsHigh, obsHigh2]
  have h2 : ([obsHigh, obsHigh2] : List ObservationAngles) ≠ [] := by simp
  exact ⟨h1, h2, (claim_C1 5 [obsHigh, obsHigh2]).2.2.2 h1 h2⟩

/-- C7: every pass emitted by the `FindPasses` scan is non-empty, all of its
samples are at or above the threshold, its samples are contiguous in the
input, the emitted passes preserve input order (their concatenation is a
sublist of the input), and a candidate still open at the end of the input is
emitted (a visible final sample always appears in the output). -/
theorem claim_C7 (minElevation : ℝ) (xs ys : List ObservationAngles)
    (o : ObservationAngles) :
    (∀ p ∈ FindPassesScan (fun a => IsVisible a minElevation) xs,
        p ≠ [] ∧ (∀ a ∈ p, IsVisible a minElevation = true) ∧ ContiguousIn p xs) ∧
    List.Sublist ((FindPassesScan (fun a => IsVisible a minElevation) xs).flatten) xs ∧
    (IsVisible o minElevation = true →
      o ∈ (FindPassesScan (fun a => IsVisible a minElevation) (ys ++ [o])).flatten) := by
  refine ⟨?_, ?_, ?_⟩
  · intro p hp
    refine ⟨findPassesLoop_mem_ne_nil _ xs [] p hp,
      findPassesLoop_mem_visible _ xs [] p (by simp) hp, ?_⟩
    rcases findPassesLoop_mem_shape _ xs [] p hp with ⟨t, rest2, hxs, hpt⟩ | hc
    · exact ⟨[], rest2, by simp [hxs, hpt]⟩
    · exact hc
  · have h : (FindPassesScan (fun a => IsVisible a minElevation) xs).flatten =
        xs.filter (fun a => IsVisible a minElevation) := by
      simpa [FindPassesScan] using
        findPassesLoop_flatten (fun a => IsVisible a minElevation) xs []
    rw [h]
    exact List.filter_sublist xs
  · intro hv
    have h : (FindPassesScan (fun a => IsVisible a minElevation) (ys ++ [o])).flatten =
        (ys ++ [o]).filter (fun a => IsVisible a minElevation) := by
      simpa [FindPassesScan] using
        findPassesLoop_flatten (fun a => IsVisible a minElevation) (ys ++ [o]) []
    rw [h]
    simp [List.filter_append, hv]

/-- Witness for C7 at a concrete input with one below-threshold and one
above-threshold sample. -/
theorem claim_C7_witness :
    [obsHigh] ∈ FindPassesScan (fun a => IsVisible a 5) [obsLow, obsHigh] ∧
    ([obsHigh] ≠ [] ∧ (∀ a ∈ [obsHigh], IsVisible a 5 = true) ∧
      ContiguousIn [obsHigh] [obsLow, obsHigh]) ∧
    IsVisible obsHigh2 5 = true ∧
    obsHigh2 ∈ (FindPassesScan (fun a => IsVisible a 5) ([obsLow] ++ [obsHigh2])).flatten := by
  have hmem : [obsHigh] ∈ FindPassesScan (fun a => IsVisible a 5) [obsLow, obsHigh] := by
    norm_num [FindPassesScan, findPassesLoop, IsVisible, obsLow, obsHigh]
  have hv : IsVisible obsHigh2 5 = true := by norm_num [IsVisible, obsHigh2]
  exact ⟨hmem, (claim_C7 5 [obsLow, obsHigh] [obsLow] obsHigh2).1 [obsHigh] hmem,
    hv, (claim_C7 5 [obsLow, obsHigh] [obsLow] obsHigh2).2.2 hv⟩

/-- C2, as stated, is false: `CalculateObservationAngles` is a total function
with no error channel and no zero-range guard.  At this concrete input the
observer coincides with the object (computed range is zero), yet the function
returns a plain `ObservationAngles` record — the division `up / range` is
performed with a zero denominator (NaN in Go float semantics; junk value `0`
in this exact-arithmetic model) instead of failing with DegenerateGeometry. -/
theorem claim_C2_counterexample :
    CalculateObservationAngles satCoincident obsOrigin =
      { Time := 0, Azimuth := 0, Elevation := 0, Range := 0, RangeRate := 0 } := by
  simp only [CalculateObservationAngles, topo_coincident]
  simp [satCoincident, atan2_zero_zero]

/-- C2 amended: `CalculateObservationAngles` performs no zero-range guard and
cannot fail.  Whenever the observer coincides with the object (topocentric
vector zero), it still returns a record, with range 0 and elevation, azimuth
and range-rate all equal to the junk value 0 obtained from dividing by the
zero range (Go would produce NaN for the elevation), rather than reporting a
DegenerateGeometry error. -/
theorem claim_C2_amended (satPos : SatellitePosition) (observer : ObserverPosition)
    (h : ECEFToTopocentric satPos observer = (0, 0, 0)) :
    (CalculateObservationAngles satPos observer).Range = 0 ∧
    (CalculateObservationAngles satPos observer).Elevation = 0 ∧
    (CalculateObservationAngles satPos observer).Azimuth = 0 ∧
    (CalculateObservationAngles satPos observer).RangeRate = 0 := by
  simp [CalculateObservationAngles, h, atan2_zero_zero]

/-- Witness for the amended C2 at the concrete coincident input. -/
theorem claim_C2_witness :
    ECEFToTopocentric satCoincident obsOrigin = (0, 0, 0) ∧
    ((CalculateObservationAngles satCoincident obsOrigin).Range = 0 ∧
      (CalculateObservationAngles satCoincident obsOrigin).Elevation = 0 ∧
      (CalculateObservationAngles satCoincident obsOrigin).Azimuth = 0 ∧
      (CalculateObservationAngles satCoincident obsOrigin).RangeRate = 0) :=
  ⟨topo_coincident, claim_C2_amended satCoincident obsOrigin topo_coincident⟩

/-- C9: for a state vector lying exactly on the observer's local zenith
(east 0, north 0, up equal to a positive range), the computed elevation
equals 90 degrees and the azimuth equals 0 degrees — the undefined direction
is pinned to north via the `atan2(0, 0) = 0` convention. -/
theorem claim_C9 (satPos : SatellitePosition) (observer : ObserverPosition) (up : ℝ)
    (h : ECEFToTopocentric satPos observer = (0, 0, up)) (hup : 0 < up) :
    (CalculateObservationAngles satPos observer).Elevation = 90 ∧
    (CalculateObservationAngles satPos observer).Azimuth = 0 := by
  have hr : Real.sqrt (0 * 0 + 0 * 0 + up * up) = up := by
    simpa using Real.sqrt_mul_self hup.le
  simp [CalculateObservationAngles, h, atan2_zero_zero, hr, div_self (ne_of_gt hup),
    Real.arcsin_one]
  field_simp
  ring

/-- Witness for C9: an object 400 km directly above the origin observer. -/
theorem claim_C9_witness :
    ECEFToTopocentric satZenith obsOrigin = (0, 0, 400) ∧ (0:ℝ) < 400 ∧
    ((CalculateObservationAngles satZenith obsOrigin).Elevation = 90 ∧
      (CalculateObservationAngles satZenith obsOrigin).Azimuth = 0) :=
  ⟨topo_zenith, by norm_num,
    claim_C9 satZenith obsOrigin 400 topo_zenith (by norm_num)⟩

/-- C6: for every observer and state vector whose position differs from the
observer's ECEF position, the computed range is nonnegative, the azimuth lies
in `[0, 360)` and the elevation lies in `[-90, 90]`; the inverse sine in the
model is the clamped `Real.arcsin`, total on all of `ℝ`, so the elevation is
well defined (never NaN) for nonzero range. -/
theorem claim_C6 (satPos : SatellitePosition) (observer : ObserverPosition)
    (h : (satPos.X, satPos.Y, satPos.Z) ≠ observerECEF observer) :
    0 ≤ (CalculateObservationAngles satPos observer).Range ∧
    (0 ≤ (CalculateObservationAngles satPos observer).Azimuth ∧
      (CalculateObservationAngles satPos observer).Azimuth < 360) ∧
    (-90 ≤ (CalculateObservationAngles satPos observer).Elevation ∧
      (CalculateObservationAngles satPos observer).Elevation ≤ 90) := by
  simp only [CalculateObservationAngles]
  exact ⟨Real.sqrt_nonneg _,
    azimuthDeg_bounds _ (neg_pi_lt_atan2 _ _) (atan2_le_pi _ _),
    elevationDeg_bounds _⟩

/-- Witness for C6: the ECEF origin point differs from the origin observer's
ECEF position. -/
theorem claim_C6_witness :
    (satNull.X, satNull.Y, satNull.Z) ≠ observerECEF obsOrigin ∧
    (0 ≤ (CalculateObservationAngles satNull obsOrigin).Range ∧
      (0 ≤ (CalculateObservationAngles satNull obsOrigin).Azimuth ∧
        (CalculateObservationAngles satNull obsOrigin).Azimuth < 360) ∧
      (-90 ≤ (CalculateObservationAngles satNull obsOrigin).Elevation ∧
        (CalculateObservationAngles satNull obsOrigin).Elevation ≤ 90)) := by
  have h : (satNull.X, satNull.Y, satNull.Z) ≠ observerECEF obsOrigin := by
    simp only [satNull, obsOrigin, observerECEF_origin]
    simp only [ne_eq, Prod.mk.injEq, not_and]
    intro h1
    exact absurd h1 (by norm_num)
  exact ⟨h, claim_C6 satNull obsOrigin h⟩

/-- C5: the code's `ECEFToTopocentric` computes exactly the specification's
WGS84 geodetic-to-ECEF conversion followed by the standard ECEF→ENU rotation
of the difference vector, and the code's range rate equals the dot product of
the ENU-rotated velocity with the unit range vector. -/
theorem claim_C5 :
    (∀ (satPos : SatellitePosition) (observer : ObserverPosition),
        ECEFToTopocentric satPos observer = toTopocentricSpec satPos observer) ∧
    (∀ (satPos : SatellitePosition) (observer : ObserverPosition),
        (CalculateObservationAngles satPos observer).RangeRate =
          rangeRateSpec satPos observer) := by
  constructor
  · intro s o
    simp only [ECEFToTopocentric, toTopocentricSpec, observerECEF, Prod.mk.injEq]
    refine ⟨?_, ?_, ?_⟩ <;> ring_nf
  · intro s o
    simp only [CalculateObservationAngles, rangeRateSpec]
    ring

/-- C4: the classifier implements the specification's first-match policy in
the exact stated order (non-positive inputs, then eccentricity above 0.25,
then the three-tolerance GEO window, then LEO below 2000 km, then MEO below
35786 km, else GEO), and the three reference inputs classify as GEO, LEO
and HEO respectively. -/
theorem claim_C4 :
    (∀ apogee perigee period inclination : ℚ,
        DetermineOrbitRegime apogee perigee period inclination =
          classifySpec apogee perigee period inclination) ∧
    DetermineOrbitRegime 35786 35786 1436 0 = OrbitRegime.GEO ∧
    DetermineOrbitRegime 400 400 92 51.6 = OrbitRegime.LEO ∧
    DetermineOrbitRegime 40000 500 600 63 = OrbitRegime.HEO := by
  refine ⟨determineOrbitRegime_eq_classifySpec, ?_, ?_, ?_⟩ <;>
    norm_num [DetermineOrbitRegime, abs_lt]

/-- C8: the classifier never fails — it returns UNKNOWN exactly when some of
apogee, perigee, period is non-positive, and for positive inputs it always
returns one of LEO, MEO, GEO, HEO (the trailing UNKNOWN branch is
unreachable). -/
theorem claim_C8 (apogee perigee period inclination : ℚ) :
    (DetermineOrbitRegime apogee perigee period inclination = OrbitRegime.UNKNOWN ↔
      apogee ≤ 0 ∨ perigee ≤ 0 ∨ period ≤ 0) ∧
    (0 < apogee → 0 < perigee → 0 < period →
      DetermineOrbitRegime apogee perigee period inclination = OrbitRegime.LEO ∨
      DetermineOrbitRegime apogee perigee period inclination = OrbitRegime.MEO ∨
      DetermineOrbitRegime apogee perigee period inclination = OrbitRegime.GEO ∨
      DetermineOrbitRegime apogee perigee period inclination = OrbitRegime.HEO) := by
  constructor
  · constructor
    · intro hu
      by_contra hc
      rcases determineOrbitRegime_cases apogee perigee period inclination hc with
        h | h | h | h <;> rw [hu] at h <;> exact OrbitRegime.noConfusion h
    · intro hc
      simp only [DetermineOrbitRegime, if_pos hc]
  · intro h1 h2 h3
    exact determineOrbitRegime_cases apogee perigee period inclination
      (by push_neg; exact ⟨h1, h2, h3⟩)

/-- Witness for C8 at ISS-like positive inputs. -/
theorem claim_C8_witness :
    ((0:ℚ) < 400 ∧ (0:ℚ) < 400 ∧ (0:ℚ) < 92) ∧
    (DetermineOrbitRegime 400 400 92 51.6 = OrbitRegime.LEO ∨
      DetermineOrbitRegime 400 400 92 51.6 = OrbitRegime.MEO ∨
      DetermineOrbitRegime 400 400 92 51.6 = OrbitRegime.GEO ∨
      DetermineOrbitRegime 400 400 92 51.6 = OrbitRegime.HEO) :=
  ⟨⟨by norm_num, by norm_num, by norm_num⟩,
    (claim_C8 400 400 92 51.6).2 (by norm_num) (by norm_num) (by norm_num)⟩

/-- C3, as stated, is false: with an integrator that fails only at sample
time 1 over the grid 0, 1, 2, the failing sample is not skipped —
`PropagateRange` aborts with an error (while the integrator succeeds at
times 0 and 2), and `FindPasses` returns that error for the whole range
instead of scanning the remaining samples. -/
theorem claim_C3_counterexample :
    FindPasses sgp4FailAt1 obsOrigin 0 2 1 0 = Except.error RangeError.propagation ∧
    PropagateRange sgp4FailAt1 0 2 1 = Except.error RangeError.propagation ∧
    exceptOk (sgp4FailAt1 0) = true ∧
    exceptOk (sgp4FailAt1 2) = true :=
  ⟨rfl, rfl, rfl, rfl⟩

/-- C3 amended: a PropagationError on an individual sample time aborts the
whole scan — a successful `PropagateRange` result is possible only when the
integrator succeeded at every step-aligned sample time in the range
(equivalently, any failing sample forces the whole-range error that
`FindPasses` then returns). -/
theorem claim_C3_amended (sgp4 : ℤ → Except PropagationError SGP4State)
    (startTime endTime stepSize : ℤ) (hst : 1 ≤ stepSize)
    (l : List SatellitePosition)
    (hok : PropagateRange sgp4 startTime endTime stepSize = Except.ok l)
    (t : ℤ) (h1 : startTime ≤ t) (h2 : t ≤ endTime)
    (hd : stepSize ∣ (t - startTime)) :
    exceptOk (sgp4 t) = true := by
  obtain ⟨_, hall⟩ := propagateRange_ok sgp4 startTime endTime stepSize hst l hok
  exact hall t (gridTimes_mem startTime endTime stepSize hst t h1 h2 hd)

/-- Witness for the amended C3 on the grid 0, 1, 2 with step 1. -/
theorem claim_C3_witness :
    (1:ℤ) ≤ 1 ∧ PropagateRange sgp4AllOk 0 2 1 = Except.ok posList012 ∧
    (0:ℤ) ≤ 1 ∧ (1:ℤ) ≤ 2 ∧ (1:ℤ) ∣ (1 - 0) ∧
    exceptOk (sgp4AllOk 1) = true :=
  ⟨le_refl 1, rfl, by norm_num, by norm_num, by norm_num,
    claim_C3_amended sgp4AllOk 0 2 1 le_rfl posList012 rfl 1
      (by norm_num) (by norm_num) (by norm_num)⟩

/-- C10: `PropagateRange` returns an error (and no samples) whenever the end
time is before the start time; otherwise, for every positive step, a
successful result consists of samples stamped `startTime, startTime +
stepSize, …` — strictly increasing, beginning at the start time, and
including the end time whenever it lies exactly on a step. -/
theorem claim_C10 (sgp4 : ℤ → Except PropagationError SGP4State)
    (startTime endTime stepSize : ℤ) :
    (endTime < startTime →
      PropagateRange sgp4 startTime endTime stepSize =
        Except.error RangeError.endBeforeStart) ∧
    (1 ≤ stepSize → ∀ l, PropagateRange sgp4 startTime endTime stepSize = Except.ok l →
      l.map SatellitePosition.Time = gridTimes startTime endTime stepSize ∧
      (l.map SatellitePosition.Time).Pairwise (· < ·) ∧
      (l.map SatellitePosition.Time).head? = some startTime ∧
      (stepSize ∣ (endTime - startTime) → endTime ∈ l.map SatellitePosition.Time)) := by
  constructor
  · intro h
    rw [PropagateRange, if_pos h]
  · intro hst l hok
    have hns : ¬ endTime < startTime := by
      intro h
      rw [PropagateRange, if_pos h] at hok
      exact Except.noConfusion hok
    obtain ⟨htimes, _⟩ := propagateRange_ok sgp4 startTime endTime stepSize hst l hok
    refine ⟨htimes, ?_, ?_, ?_⟩
    · rw [htimes]
      exact gridTimes_pairwise startTime endTime stepSize hst
    · rw [htimes]
      exact gridTimes_head startTime endTime stepSize (by omega)
    · intro hd
      rw [htimes]
      exact gridTimes_mem startTime endTime stepSize hst endTime (by omega) le_rfl hd

/-- Witness for C10: the inverted range errors out, and the grid 0, 1, 2 with
step 1 is produced in order. -/
theorem claim_C10_witness :
    ((3:ℤ) > 2 ∧ PropagateRange sgp4AllOk 3 2 1 = Except.error RangeError.endBeforeStart) ∧
    ((1:ℤ) ≤ 1 ∧ PropagateRange sgp4AllOk 0 2 1 = Except.ok posList012) ∧
    (posList012.map SatellitePosition.Time = gridTimes 0 2 1 ∧
      (posList012.map SatellitePosition.Time).Pairwise (· < ·) ∧
      (posList012.map SatellitePosition.Time).head? = some 0 ∧
      ((1:ℤ) ∣ (2 - 0) → (2:ℤ) ∈ posList012.map SatellitePosition.Time)) :=
  ⟨⟨by norm_num, (claim_C10 sgp4AllOk 3 2 1).1 (by norm_num)⟩,
    ⟨le_refl 1, rfl⟩,
    (claim_C10 sgp4AllOk 0 2 1).2 (by norm_num) posList012 rfl⟩

end Icu
